import Mathlib

/-
Verification development for midimix_ardour_x42eq.py: a shallow embedding of
the control-surface router (surface_callback and its helpers) and of the
OSC response handlers, with theorems checking the specification testable
properties against the embedded code.

Conventions of the embedding:
- Python dicts holding LED state are association lists `List (Nat × Bool)`;
  `getA` is `dict.get` (None for a missing key) and `setA` is item
  assignment (in-place update of an existing key, append for a new one).
- Machine state is the record `St` holding the globals the handlers mutate
  (`note_press`, `operation`, `plugin_list`, `plugin_desc`, `bank`).
- Every handler returns an `R`: the state reached, the ordered list of
  outgoing effects (OSC sends and MIDI LED writes), and an `err` flag that
  models a Python exception escaping the handler.  Mutations performed
  before the raise are kept in the returned state, as in Python.
- The `osc.send` / `time.sleep` / async-response pattern is modelled by an
  environment `Env` giving the responses that accumulate during the sleep:
  a `/strip/plugin/list` reply replaces `plugin_list` (get_plugin_list) and
  each `/strip/plugin/descriptor` reply tuple is appended to `plugin_desc`
  (get_plugin_desc).
- Floats are modelled as `Rat`; the numeric formulas of the source are
  linear with exact decimal constants.
-/

namespace MidimixArdour

/-- OSC argument values: strings or numbers (only what the router inspects). -/
inductive PVal where
  | s (v : String)
  | n (v : Int)
deriving DecidableEq, Repr

/-- Modes of the operation state machine: 'mixer', 'EQ', 'read_keypress'. -/
inductive Mode where
  | mixer
  | eq
  | read_keypress
deriving DecidableEq, Repr

/-- Value of operation['plugin_pos']: None, an int, or the list m_pos
returned by search_eq_strip when several EQs are found. -/
inductive PluginPos where
  | nonePos
  | onePos (p : Nat)
  | multiPos (ps : List Nat)
deriving DecidableEq, Repr

/-- The note_press global: chord-detection state. -/
structure NotePress where
  note : Option Nat
  state : Bool
deriving DecidableEq, Repr

/-- The operation global: mode, strip, plugin_pos. -/
structure Operation where
  mode : Mode
  strip : Option Nat
  plugin_pos : PluginPos
deriving DecidableEq, Repr

/-- One bank slot: its two LED mirrors ('led_stat_mix' and 'led_stat_eq'). -/
structure BankL where
  led_stat_mix : List (Nat × Bool)
  led_stat_eq : List (Nat × Bool)
deriving DecidableEq, Repr

/-- The mutable globals of the script. -/
structure St where
  note_press : NotePress
  operation : Operation
  plugin_list : List PVal
  plugin_desc : List (List PVal)
  current : Nat
  bank0 : BankL
  bank1 : BankL
  bank2 : BankL
deriving DecidableEq, Repr

/-- Outgoing effects: OSC commands and MIDI LED writes. -/
inductive Out where
  | oscMute (strip : Nat) (v : Nat)
  | oscRec (strip : Nat) (v : Nat)
  | oscFader (strip : Nat) (v : Rat)
  | oscMasterGain (v : Rat)
  | oscTrim (strip : Nat) (v : Rat)
  | oscPan (strip : Nat) (v : Rat)
  | oscSolo (strip : Nat) (v : Rat)
  | oscPluginList (strip : Nat)
  | oscPluginDescriptor (strip : Nat) (pos : Nat)
  | oscPluginParameter (strip : Nat) (pos : Nat) (opt : Nat) (v : Rat)
  | ledOn (note : Nat)
  | ledOff (note : Nat)
deriving DecidableEq, Repr

/-- Result of running one handler: state reached, effects emitted in order,
and whether an exception escaped the handler (partial mutations kept). -/
structure R where
  st : St
  out : List Out
  err : Bool
deriving DecidableEq, Repr

/-- Result of search_eq_strip: an `R` plus the Python return value. -/
structure RV where
  st : St
  out : List Out
  err : Bool
  val : PluginPos
deriving DecidableEq, Repr

/-- Responses of the remote console that arrive during the sleeps. -/
structure Env where
  listReply : Nat → Option (List PVal)
  descReply : Nat → Nat → List (List PVal)

/-- Incoming MIDI messages from the surface. -/
inductive Msg where
  | note_on (note : Nat)
  | note_off (note : Nat)
  | cc (control : Nat) (value : Nat)
deriving DecidableEq, Repr

/-! ### Static tables from the source -/

def faders : List Nat := [19, 23, 27, 31, 49, 53, 57, 61, 62]

def mutes : List Nat := [1, 4, 7, 10, 13, 16, 19, 22]

def recs : List Nat := [3, 6, 9, 12, 15, 18, 21, 24]

def knobs : List Nat :=
  [16, 17, 18, 20, 21, 22, 24, 25, 26,
   28, 29, 30, 46, 47, 48, 50, 51, 52,
   54, 55, 56, 58, 59, 60]

def b_left : Nat := 25

def b_right : Nat := 26

def b_solo : Nat := 27

/-- Keys of the led_stat_mix / led_stat_eq dicts, in insertion order. -/
def ledKeys : List Nat := [1, 3, 4, 6, 7, 9, 10, 12, 13, 15, 16, 18, 19, 21, 22, 24]

def initLedMap : List (Nat × Bool) := ledKeys.map (fun k => (k, false))

def monoName : String := "x42-eq - Parametric Equalizer Mono"

def stereoName : String := "x42-eq - Parametric Equalizer Stereo"

/-- The eq_leds dict: parameter name to LED note. -/
def eq_leds (name : String) : Option Nat :=
  if name = "Enable" then some 3
  else if name = "Reset Peak Hold" then some 6
  else if name = "Highpass" then some 1
  else if name = "Lowpass" then some 4
  else if name = "Lowshelf" then some 7
  else if name = "Section 1" then some 10
  else if name = "Section 2" then some 13
  else if name = "Section 3" then some 16
  else if name = "Section 4" then some 19
  else if name = "Highshelf" then some 22
  else none

/-- The eq_led_trigger dict: LED note to plugin option slot. -/
def eq_led_trigger (led : Nat) : Option Nat :=
  if led = 3 then some 1
  else if led = 6 then some 4
  else if led = 1 then some 5
  else if led = 4 then some 8
  else if led = 7 then some 11
  else if led = 10 then some 15
  else if led = 13 then some 19
  else if led = 16 then some 23
  else if led = 19 then some 27
  else if led = 22 then some 31
  else none

/-- One entry of the eq_fad_knob parameter map. -/
structure FadKnob where
  min : Rat
  incremento : Rat
  plugin_opt : Nat
deriving DecidableEq, Repr

/-- The eq_fad_knob dict: continuous control to parameter-map entry. -/
def eq_fad_knob (c : Nat) : Option FadKnob :=
  if c = 16 then some ⟨5, 9.8031, 6⟩
  else if c = 17 then some ⟨0, 0.01102, 7⟩
  else if c = 20 then some ⟨500, 153.5433, 9⟩
  else if c = 21 then some ⟨0, 0.01102, 10⟩
  else if c = 24 then some ⟨25, 2.95275, 12⟩
  else if c = 25 then some ⟨0.0625, 0.031, 13⟩
  else if c = 27 then some ⟨-18, 0.283464, 14⟩
  else if c = 28 then some ⟨20, 15.59055, 16⟩
  else if c = 29 then some ⟨0.0625, 0.031, 17⟩
  else if c = 31 then some ⟨-18, 0.283464, 18⟩
  else if c = 46 then some ⟨40, 31.1811, 20⟩
  else if c = 47 then some ⟨0.0625, 0.031, 21⟩
  else if c = 49 then some ⟨-18, 0.283464, 22⟩
  else if c = 50 then some ⟨100, 77.95275, 24⟩
  else if c = 51 then some ⟨0.0625, 0.031, 25⟩
  else if c = 53 then some ⟨-18, 0.283464, 26⟩
  else if c = 54 then some ⟨200, 155.90551, 28⟩
  else if c = 55 then some ⟨0.0625, 0.031, 29⟩
  else if c = 57 then some ⟨-18, 0.283464, 30⟩
  else if c = 58 then some ⟨1000, 118.1102, 32⟩
  else if c = 59 then some ⟨0.0625, 0.031, 33⟩
  else if c = 61 then some ⟨-18, 0.283464, 34⟩
  else if c = 19 then some ⟨-18, 0.283464, 2⟩
  else none

/-! ### Python container semantics -/

/-- Python dict.get: value of a key, or None when absent. -/
def getA (m : List (Nat × Bool)) (k : Nat) : Option Bool :=
  match m with
  | [] => none
  | (a, b) :: rest => if a = k then some b else getA rest k

/-- Python dict item assignment: update an existing key in place, append a
missing one at the end. -/
def setA (m : List (Nat × Bool)) (k : Nat) (v : Bool) : List (Nat × Bool) :=
  match m with
  | [] => [(k, v)]
  | (a, b) :: rest => if a = k then (a, v) :: rest else (a, b) :: setA rest k v

/-- Python list.index as an Option (None models the ValueError). -/
def pyListIndex (l : List Nat) (x : Nat) : Option Nat :=
  match l with
  | [] => none
  | a :: rest => if a = x then some 0 else (pyListIndex rest x).map (· + 1)

/-- Python indexing with possibly negative index (None models IndexError). -/
def pyIndex {α : Type} (l : List α) (i : Int) : Option α :=
  if 0 ≤ i then l.get? i.toNat
  else if (-i).toNat ≤ l.length then l.get? (l.length - (-i).toNat) else none

/-- Python slice l[4::3]. -/
def pySlice43 (l : List PVal) : List PVal :=
  (List.range l.length).filterMap
    (fun i => if 4 ≤ i ∧ (i - 4) % 3 = 0 then l.get? i else none)

/-- The m_pos collection loop of search_eq_strip for one plugin name:
1-based indices of the occurrences of the name in plugin_names. -/
def posOf (names : List PVal) (name : String) : List Nat :=
  (List.range names.length).filterMap
    (fun i => if names.get? i = some (PVal.s name) then some (i + 1) else none)

/-- Candidate EQ positions: the stereo variant is counted only when the mono
variant is absent from plugin_names, as in the source. -/
def eqPositions (names : List PVal) : List Nat :=
  if PVal.s monoName ∉ names then posOf names stereoName else posOf names monoName

/-! ### Bank access -/

/-- Python bank[i]: only keys 0, 1, 2 exist (None models the KeyError). -/
def getBank (st : St) (i : Int) : Option BankL :=
  if i = 0 then some st.bank0
  else if i = 1 then some st.bank1
  else if i = 2 then some st.bank2
  else none

/-- Write one bank slot back (call sites always pass a key that exists). -/
def setBank (st : St) (i : Int) (bl : BankL) : St :=
  if i = 0 then { st with bank0 := bl }
  else if i = 1 then { st with bank1 := bl }
  else if i = 2 then { st with bank2 := bl }
  else st

/-! ### LED primitives -/

/-- apaga_leds: darken the bank LEDs and every key of bank[0] mix mirror. -/
def apaga_leds_out (st : St) : List Out :=
  [Out.ledOff b_right, Out.ledOff b_left] ++
    st.bank0.led_stat_mix.map (fun p => Out.ledOff p.1)

/-- set_led_status: render the current bank in the current mode. It never
mutates state; err models the dict lookups that can raise. -/
def set_led_status (st : St) : R :=
  if st.operation.mode = Mode.mixer then
    match getBank st (st.current : Int) with
    | none => ⟨st, [], true⟩
    | some bl =>
      let leds := bl.led_stat_mix.map
        (fun p => if p.2 then Out.ledOn p.1 else Out.ledOff p.1)
      let ind :=
        if st.current = 1 then [Out.ledOn b_left, Out.ledOff b_right]
        else if st.current = 2 then [Out.ledOff b_left, Out.ledOn b_right]
        else [Out.ledOff b_left, Out.ledOff b_right]
      ⟨st, leds ++ ind, false⟩
  else if st.operation.mode = Mode.eq then
    match getBank st (st.current : Int) with
    | none => ⟨st, [], true⟩
    | some bl =>
      let leds := bl.led_stat_eq.map
        (fun p => if p.2 then Out.ledOn p.1 else Out.ledOff p.1)
      match st.operation.strip with
      | none => ⟨st, leds, true⟩
      | some s =>
        match pyIndex mutes ((s : Int) % 8 - 1) with
        | none => ⟨st, leds, true⟩
        | some mnote =>
          match getA bl.led_stat_mix mnote with
          | none => ⟨st, leds, true⟩
          | some muted =>
            ⟨st, leds ++ (if muted then [Out.ledOn 24] else []), false⟩
  else ⟨st, [], false⟩

/-- set_mixer_mode: clear the operation state and re-render. -/
def set_mixer_mode (st : St) : R :=
  let st2 := { st with operation := ⟨Mode.mixer, none, PluginPos.nonePos⟩ }
  let r := set_led_status st2
  ⟨r.st, [Out.ledOff b_left, Out.ledOff b_right] ++ r.out, r.err⟩

/-! ### Toggle handlers -/

/-- trigger_mute: toggle the mute flag of a strip and emit /strip/mute. -/
def trigger_mute (st : St) (led_id : Nat) : R :=
  let current := st.current
  let resolved : Option (Nat × Nat) :=
    if st.operation.mode = Mode.mixer then
      match pyListIndex mutes led_id with
      | some i => some (i + 1 + 8 * current, led_id)
      | none => none
    else
      match st.operation.strip with
      | some s =>
        match pyIndex mutes ((s : Int) % 8 - 1) with
        | some led2 => some (s, led2)
        | none => none
      | none => none
  match resolved with
  | none => ⟨st, [], true⟩
  | some (strip_id, led) =>
    match getBank st (current : Int) with
    | none => ⟨st, [], true⟩
    | some bl =>
      match getA bl.led_stat_mix led with
      | none => ⟨st, [], true⟩
      | some true =>
        ⟨setBank st (current : Int)
            { bl with led_stat_mix := setA bl.led_stat_mix led false,
                      led_stat_eq := setA bl.led_stat_eq 21 false },
          [Out.oscMute strip_id 0], false⟩
      | some false =>
        ⟨setBank st (current : Int)
            { bl with led_stat_mix := setA bl.led_stat_mix led true,
                      led_stat_eq := setA bl.led_stat_eq 21 true },
          [Out.oscMute strip_id 1], false⟩

/-- trigger_rec: toggle the record-arm flag of a strip (strip_id defaulted). -/
def trigger_rec (st : St) (led_id : Nat) : R :=
  let current := st.current
  match pyListIndex recs led_id with
  | none => ⟨st, [], true⟩
  | some i =>
    let strip_id := i + 1 + 8 * current
    match getBank st (current : Int) with
    | none => ⟨st, [], true⟩
    | some bl =>
      match getA bl.led_stat_mix led_id with
      | none => ⟨st, [], true⟩
      | some true =>
        ⟨setBank st (current : Int)
            { bl with led_stat_mix := setA bl.led_stat_mix led_id false },
          [Out.oscRec strip_id 0], false⟩
      | some false =>
        ⟨setBank st (current : Int)
            { bl with led_stat_mix := setA bl.led_stat_mix led_id true },
          [Out.oscRec strip_id 1], false⟩

/-- operar_led: flip an LED mirror entry and write the physical LED. In
read_keypress mode the local led_status is never bound (NameError). The
final branch (missing key) performs the dict write and then raises, because
enciende_led is called with the None returned by dict.get. -/
def operar_led (st : St) (led_id : Nat) : R :=
  let current := st.current
  match st.operation.mode with
  | Mode.read_keypress => ⟨st, [], true⟩
  | m =>
    match getBank st (current : Int) with
    | none => ⟨st, [], true⟩
    | some bl =>
      let ls := if m = Mode.eq then bl.led_stat_eq else bl.led_stat_mix
      let write : List (Nat × Bool) → BankL := fun ls2 =>
        if m = Mode.eq then { bl with led_stat_eq := ls2 }
        else { bl with led_stat_mix := ls2 }
      match getA ls led_id with
      | some false =>
        ⟨setBank st (current : Int) (write (setA ls led_id true)), [Out.ledOn led_id], false⟩
      | some true =>
        ⟨setBank st (current : Int) (write (setA ls led_id false)), [Out.ledOff led_id], false⟩
      | none =>
        ⟨setBank st (current : Int) (write (setA ls led_id true)), [], true⟩

/-! ### Descriptor seeding -/

/-- Clear every value of an LED mirror, keeping its keys. -/
def clear_eq (m : List (Nat × Bool)) : List (Nat × Bool) :=
  m.map (fun p => (p.1, false))

/-- One iteration of the descriptor loop: resolve val[5] through eq_leds and
set the LED from val[12] > 0; any failure skips the entry (bare except). -/
def seed_one (m : List (Nat × Bool)) (val : List PVal) : List (Nat × Bool) :=
  match val.get? 5 with
  | some (PVal.s name) =>
    match eq_leds name with
    | some led =>
      match val.get? 12 with
      | some (PVal.n x) => setA m led (decide (0 < x))
      | _ => m
    | none => m
  | _ => m

/-- The full descriptor-seeding loop over the plugin_desc buffer. -/
def seed_desc (m : List (Nat × Bool)) (descs : List (List PVal)) : List (Nat × Bool) :=
  descs.foldl seed_one m

/-! ### Discovery -/

/-- espera_indice_modulo_eq: in read_keypress mode, resolve a rec press to
one of the collected module positions, fetch its descriptor, seed the EQ
LED mirror, render, and clear plugin_desc. The source also executes
`plugin_list = ()` there, but without a global declaration for plugin_list
that assignment binds a local name and the global buffer is untouched, so
the embedding leaves plugin_list unchanged. -/
def espera_indice_modulo_eq (env : Env) (st : St) (note : Nat) : R :=
  if note ∈ recs then
    match pyListIndex recs note with
    | none => ⟨st, [], true⟩
    | some pos_modulo =>
      match st.operation.plugin_pos with
      | PluginPos.multiPos ps =>
        if pos_modulo + 1 > ps.length then ⟨st, [], false⟩
        else
          match pyIndex ps (pos_modulo : Int) with
          | none => ⟨st, [], true⟩
          | some p =>
            let st1 := { st with operation :=
              { st.operation with plugin_pos := PluginPos.onePos p, mode := Mode.eq } }
            match st1.operation.strip with
            | none => ⟨st1, [], true⟩
            | some s =>
              let st2 := { st1 with plugin_desc := st1.plugin_desc ++ env.descReply s p }
              match getBank st2 (st2.current : Int) with
              | none => ⟨st2, [Out.oscPluginDescriptor s p], true⟩
              | some bl =>
                let eq2 := seed_desc (clear_eq bl.led_stat_eq) st2.plugin_desc
                let st3 := setBank st2 (st2.current : Int) { bl with led_stat_eq := eq2 }
                let r := set_led_status st3
                if r.err then ⟨r.st, Out.oscPluginDescriptor s p :: r.out, true⟩
                else ⟨{ r.st with plugin_desc := [] },
                      Out.oscPluginDescriptor s p :: r.out, false⟩
      | _ => ⟨st, [], true⟩
  else ⟨st, [], false⟩

/-- search_eq_strip: list the plugins of a strip, locate the x42 EQ
occurrences, and either fall back to mixer mode, enter read_keypress with
the candidate list, or fetch the single descriptor and seed the EQ LED
mirror. The single-descriptor path clears neither plugin_desc nor
plugin_list, exactly as the source. -/
def search_eq_strip (env : Env) (st : St) (strip_id : Nat) : RV :=
  let st1 :=
    match env.listReply strip_id with
    | some l => { st with plugin_list := l }
    | none => st
  let send1 := [Out.oscPluginList strip_id]
  if st1.plugin_list.length < 4 then
    let r := set_mixer_mode st1
    ⟨r.st, send1 ++ r.out, r.err, PluginPos.nonePos⟩
  else
    let names := pySlice43 st1.plugin_list
    if PVal.s monoName ∉ names ∧ PVal.s stereoName ∉ names then
      let r := set_mixer_mode st1
      ⟨r.st, send1 ++ r.out, r.err, PluginPos.nonePos⟩
    else
      let m_pos := eqPositions names
      if m_pos.length > 1 then
        if m_pos.length > 8 then
          let r := set_mixer_mode st1
          ⟨r.st, send1 ++ r.out, r.err, PluginPos.nonePos⟩
        else
          let st2 := { st1 with operation :=
            { st1.operation with mode := Mode.read_keypress, strip := some strip_id } }
          ⟨st2, send1 ++ apaga_leds_out st2 ++ (recs.take m_pos.length).map Out.ledOn,
            false, PluginPos.multiPos m_pos⟩
      else
        match m_pos with
        | [] => ⟨st1, send1, true, PluginPos.nonePos⟩
        | pos :: _ =>
          let st2 := { st1 with plugin_desc := st1.plugin_desc ++ env.descReply strip_id pos }
          match getBank st2 (st2.current : Int) with
          | none => ⟨st2, send1 ++ [Out.oscPluginDescriptor strip_id pos], true,
                     PluginPos.nonePos⟩
          | some bl =>
            let eq2 := seed_desc (clear_eq bl.led_stat_eq) st2.plugin_desc
            ⟨setBank st2 (st2.current : Int) { bl with led_stat_eq := eq2 },
              send1 ++ [Out.oscPluginDescriptor strip_id pos], false, PluginPos.onePos pos⟩

/-! ### The surface callback -/

/-- The shared Solo-chord block (source lines 565-573 and 578-586, which
are identical): set mode EQ and the strip, run discovery, store its return
value in plugin_pos, and on success light the bank LEDs and re-render. -/
def chord_to_eq (env : Env) (st : St) (strip_id : Nat) : R :=
  let st1 := { st with operation :=
    { st.operation with mode := Mode.eq, strip := some strip_id } }
  let rv := search_eq_strip env st1 strip_id
  if rv.err then ⟨rv.st, rv.out, true⟩
  else
    let st2 := { rv.st with operation :=
      { rv.st.operation with plugin_pos := rv.val } }
    if rv.val ≠ PluginPos.nonePos then
      let r := set_led_status st2
      ⟨r.st, rv.out ++ [Out.ledOn b_left, Out.ledOn b_right] ++ r.out, r.err⟩
    else ⟨st2, rv.out, false⟩

/-- The Mixer-mode press dispatch (after note_press is recorded): mute and
rec buttons toggle and then operar_led re-renders; others return. -/
def mixer_press (st : St) (note : Nat) : R :=
  if note ∈ mutes then
    let r1 := trigger_mute st note
    if r1.err then r1
    else
      let r2 := operar_led r1.st note
      ⟨r2.st, r1.out ++ r2.out, r2.err⟩
  else if note ∈ recs then
    let r1 := trigger_rec st note
    if r1.err then r1
    else
      let r2 := operar_led r1.st note
      ⟨r2.st, r1.out ++ r2.out, r2.err⟩
  else ⟨st, [], false⟩

/-- The EQ-mode press dispatch (after note_press is recorded): note 24
toggles the active strip's mix mute; other notes (except 27) flip the EQ
section LED and send the mapped plugin parameter. -/
def eq_press (st : St) (note : Nat) : R :=
  if note = 24 then
    let r1 := trigger_mute st note
    if r1.err then r1
    else
      match r1.st.operation.strip with
      | none => ⟨r1.st, r1.out, true⟩
      | some s =>
        match pyIndex mutes ((s : Int) % 8 - 1) with
        | none => ⟨r1.st, r1.out, true⟩
        | some mnote =>
          match getBank r1.st (r1.st.current : Int) with
          | none => ⟨r1.st, r1.out, true⟩
          | some bl =>
            match getA bl.led_stat_mix mnote with
            | none => ⟨r1.st, r1.out, true⟩
            | some muted =>
              ⟨r1.st, r1.out ++ [if muted then Out.ledOn 24 else Out.ledOff 24], false⟩
  else if note ≠ 27 then
    match eq_led_trigger note with
    | none => ⟨st, [], true⟩
    | some opt =>
      match getBank st (st.current : Int) with
      | none => ⟨st, [], true⟩
      | some bl =>
        match getA bl.led_stat_eq note with
        | none => ⟨st, [], true⟩
        | some cur =>
          let valor : Nat := if cur then 0 else 1
          let r1 := operar_led st note
          if r1.err then r1
          else
            match r1.st.operation.strip, r1.st.operation.plugin_pos with
            | some s, PluginPos.onePos p =>
              ⟨r1.st, r1.out ++ [Out.oscPluginParameter s p opt (valor : Rat)], false⟩
            | _, _ => ⟨r1.st, r1.out, true⟩
  else ⟨st, [], false⟩

/-- The note_on branch of surface_callback, before the try/except wrapper. -/
def note_on_inner (env : Env) (st : St) (note : Nat) : R :=
  if st.note_press.state then
    if st.note_press.note = some b_solo then
      if (note - 1) ∈ mutes then
        match pyListIndex mutes (note - 1) with
        | none => ⟨st, [], true⟩
        | some mi =>
          let strip_id := mi + 1 + 8 * st.current
          if st.operation.mode = Mode.mixer then chord_to_eq env st strip_id
          else
            if st.operation.strip ≠ some strip_id then chord_to_eq env st strip_id
            else set_mixer_mode st
      else if note ∈ recs then ⟨st, [], false⟩
      else ⟨st, [], false⟩
    else ⟨st, [], false⟩
  else
    if st.operation.mode = Mode.read_keypress then espera_indice_modulo_eq env st note
    else if note = b_left then
      let st1 := if st.current > 0 then { st with current := st.current - 1 } else st
      let r := set_led_status st1
      ⟨r.st, r.out, r.err⟩
    else if note = b_right then
      let st1 := if st.current < 2 then { st with current := st.current + 1 } else st
      let r := set_led_status st1
      ⟨r.st, r.out, r.err⟩
    else
      let stp := { st with note_press := ⟨some note, true⟩ }
      if stp.operation.mode = Mode.mixer then mixer_press stp note
      else if stp.operation.mode = Mode.eq then eq_press stp note
      else ⟨stp, [], false⟩

/-- The control_change branch of surface_callback (not covered by any
try/except in the source: err = true escapes the router). -/
def cc_handler (st : St) (c v : Nat) : R :=
  if st.operation.mode = Mode.mixer then
    let fOut : List Out :=
      if c ∈ faders then
        if c = 62 then [Out.oscMasterGain (-193 + 1.622 * (v : Rat))]
        else
          match pyListIndex faders c with
          | some i => [Out.oscFader (i + 1 + 8 * st.current) (0 + 0.79 * ((v : Rat) / 100))]
          | none => []
      else []
    if c ∈ knobs then
      match pyListIndex knobs c with
      | none => ⟨st, fOut, true⟩
      | some i =>
        let strip_id := i / 3 + 1 + 8 * st.current
        let cmd : Out :=
          match i % 3 with
          | 0 => Out.oscTrim strip_id (-20 + 0.31496 * (v : Rat))
          | 1 => Out.oscPan strip_id (1 - 0.00787 * (v : Rat))
          | _ => Out.oscSolo strip_id (if 90 < v then 1 else 0)
        ⟨st, fOut ++ [cmd], false⟩
    else ⟨st, fOut, false⟩
  else if st.operation.mode = Mode.eq then
    if c = 62 then
      match st.operation.strip with
      | some s => ⟨st, [Out.oscFader s (0 + 0.79 * ((v : Rat) / 100))], false⟩
      | none => ⟨st, [], true⟩
    else if c = 18 then
      match st.operation.strip with
      | some s => ⟨st, [Out.oscPan s (1 - 0.00787 * (v : Rat))], false⟩
      | none => ⟨st, [], true⟩
    else if c = 60 then
      match st.operation.strip with
      | some s => ⟨st, [Out.oscSolo s (if 90 < v then 1 else 0)], false⟩
      | none => ⟨st, [], true⟩
    else
      match eq_fad_knob c with
      | none => ⟨st, [], true⟩
      | some fk =>
        match st.operation.strip, st.operation.plugin_pos with
        | some s, PluginPos.onePos p =>
          ⟨st, [Out.oscPluginParameter s p fk.plugin_opt (fk.min + fk.incremento * (v : Rat))],
            false⟩
        | _, _ => ⟨st, [], true⟩
  else ⟨st, [], false⟩

/-- surface_callback: the single entry point for surface events. Exceptions
in the note_on branch are caught and printed (err cleared, partial state
kept); the note_off and control_change branches are outside the try. -/
def surface_callback (env : Env) (st : St) (msg : Msg) : R :=
  match msg with
  | Msg.note_on n =>
    let r := note_on_inner env st n
    if r.err then ⟨r.st, r.out, false⟩ else r
  | Msg.note_off n =>
    if st.note_press.note = some n then
      ⟨{ st with note_press := ⟨none, false⟩ }, [], false⟩
    else ⟨st, [], false⟩
  | Msg.cc c v => cc_handler st c v

/-- Fold a list of surface events through the callback, collecting effects. -/
def runEvents (env : Env) (st : St) (msgs : List Msg) : St × List Out :=
  msgs.foldl
    (fun acc m =>
      let r := surface_callback env acc.1 m
      (r.st, acc.2 ++ r.out))
    (st, [])

/-! ### Remote-response handlers -/

/-- get_plugin_list: a /strip/plugin/list reply replaces the buffer. -/
def get_plugin_list (st : St) (args : List PVal) : St :=
  { st with plugin_list := args }

/-- get_plugin_desc: a /strip/plugin/descriptor reply appends one tuple. -/
def get_plugin_desc (st : St) (args : List PVal) : St :=
  { st with plugin_desc := st.plugin_desc ++ [args] }

/-- event_recenable: mirror a remote record-arm change into led_stat_mix. -/
def event_recenable (st : St) (strip_id : Nat) (valor : Rat) : R :=
  let vel : Nat := if valor = 1 then 127 else 0
  let strip_bank : Int := (strip_id : Int) / 8 - (if strip_id % 8 = 0 then 1 else 0)
  if strip_bank < 3 then
    let bank_led : Int := (strip_id : Int) - 1 - 8 * strip_bank
    match pyIndex recs bank_led with
    | none => ⟨st, [], true⟩
    | some led =>
      match getBank st strip_bank with
      | none => ⟨st, [], true⟩
      | some bl =>
        let st2 := setBank st strip_bank
          { bl with led_stat_mix := setA bl.led_stat_mix led (vel == 127) }
        if st2.operation.mode = Mode.mixer then
          ⟨st2, [if vel == 127 then Out.ledOn led else Out.ledOff led], false⟩
        else ⟨st2, [], false⟩
  else ⟨st, [], false⟩

/-- event_mute: mirror a remote mute change into led_stat_mix, and also into
key 21 of the same bank led_stat_eq mirror, exactly as the source does. -/
def event_mute (st : St) (strip_id : Nat) (valor : Rat) : R :=
  let vel : Nat := if valor = 1 then 127 else 0
  let strip_bank : Int := (strip_id : Int) / 8 - (if strip_id % 8 = 0 then 1 else 0)
  if strip_bank < 3 then
    let bank_led : Int := (strip_id : Int) - 1 - 8 * strip_bank
    match pyIndex mutes bank_led with
    | none => ⟨st, [], true⟩
    | some led =>
      match getBank st strip_bank with
      | none => ⟨st, [], true⟩
      | some bl =>
        let st2 := setBank st strip_bank
          { bl with led_stat_mix := setA bl.led_stat_mix led (vel == 127),
                    led_stat_eq := setA bl.led_stat_eq 21 (vel == 127) }
        if st2.operation.mode = Mode.mixer then
          if strip_bank = (st2.current : Int) then
            ⟨st2, [if vel == 127 then Out.ledOn led else Out.ledOff led], false⟩
          else ⟨st2, [], false⟩
        else ⟨st2, [], false⟩
  else ⟨st, [], false⟩

/-- load_project: a /master/name message with a blank name blacks out the
LEDs (session machinery aside); it never touches the bank mirrors. -/
def load_project (st : St) (valor : String) : R :=
  if valor = " " then ⟨st, apaga_leds_out st, false⟩ else ⟨st, [], false⟩

/-! ### Initial state and test environments -/

def initBank : BankL := ⟨initLedMap, initLedMap⟩

def initSt : St :=
  { note_press := ⟨none, false⟩
    operation := ⟨Mode.mixer, none, PluginPos.nonePos⟩
    plugin_list := []
    plugin_desc := []
    current := 0
    bank0 := initBank
    bank1 := initBank
    bank2 := initBank }

/-- Environment with no remote responses. -/
def env0 : Env := ⟨fun _ => none, fun _ _ => []⟩

/-! ### Basic lemmas about the container semantics -/

theorem getA_setA_ne (m : List (Nat × Bool)) (k k2 : Nat) (v : Bool) (h : k2 ≠ k) :
    getA (setA m k v) k2 = getA m k2 := by
  induction m with
  | nil => simp [setA, getA, Ne.symm h]
  | cons a rest ih =>
    obtain ⟨a1, a2⟩ := a
    by_cases hk : a1 = k
    · subst hk
      simp [setA, getA, Ne.symm h]
    · simp [setA, getA, hk, ih]

theorem pyListIndex_mem {l : List Nat} {x i : Nat} (h : pyListIndex l x = some i) :
    x ∈ l := by
  induction l generalizing i with
  | nil => simp [pyListIndex] at h
  | cons a rest ih =>
    by_cases ha : a = x
    · exact ha ▸ List.mem_cons_self a rest
    · simp only [pyListIndex, ha, if_false] at h
      cases hr : pyListIndex rest x with
      | none => rw [hr] at h; simp at h
      | some j => exact List.mem_cons_of_mem a (ih hr)

/-! ### State-preservation lemmas -/

@[simp] theorem setBank_current (st : St) (i : Int) (bl : BankL) :
    (setBank st i bl).current = st.current := by
  unfold setBank; split_ifs <;> rfl

@[simp] theorem setBank_operation (st : St) (i : Int) (bl : BankL) :
    (setBank st i bl).operation = st.operation := by
  unfold setBank; split_ifs <;> rfl

@[simp] theorem setBank_note_press (st : St) (i : Int) (bl : BankL) :
    (setBank st i bl).note_press = st.note_press := by
  unfold setBank; split_ifs <;> rfl

@[simp] theorem setBank_plugin_desc (st : St) (i : Int) (bl : BankL) :
    (setBank st i bl).plugin_desc = st.plugin_desc := by
  unfold setBank; split_ifs <;> rfl

@[simp] theorem setBank_plugin_list (st : St) (i : Int) (bl : BankL) :
    (setBank st i bl).plugin_list = st.plugin_list := by
  unfold setBank; split_ifs <;> rfl

@[simp] theorem set_led_status_st (st : St) : (set_led_status st).st = st := by
  unfold set_led_status; (repeat' split) <;> rfl

@[simp] theorem set_mixer_mode_st (st : St) :
    (set_mixer_mode st).st =
      { st with operation := ⟨Mode.mixer, none, PluginPos.nonePos⟩ } := by
  simp [set_mixer_mode]

@[simp] theorem trigger_mute_current (st : St) (l : Nat) :
    (trigger_mute st l).st.current = st.current := by
  unfold trigger_mute
  repeat' (first | split | simp_all)

@[simp] theorem trigger_rec_current (st : St) (l : Nat) :
    (trigger_rec st l).st.current = st.current := by
  unfold trigger_rec
  repeat' (first | split | simp_all)

@[simp] theorem operar_led_current (st : St) (l : Nat) :
    (operar_led st l).st.current = st.current := by
  unfold operar_led
  repeat' (first | split | simp_all)

@[simp] theorem espera_current (env : Env) (st : St) (n : Nat) :
    (espera_indice_modulo_eq env st n).st.current = st.current := by
  unfold espera_indice_modulo_eq
  repeat' (first | split | simp_all)

@[simp] theorem search_current (env : Env) (st : St) (s : Nat) :
    (search_eq_strip env st s).st.current = st.current := by
  unfold search_eq_strip
  repeat' (first | split | simp_all)

@[simp] theorem cc_handler_st (st : St) (c v : Nat) : (cc_handler st c v).st = st := by
  unfold cc_handler; (repeat' split) <;> rfl

@[simp] theorem chord_to_eq_current (env : Env) (st : St) (s : Nat) :
    (chord_to_eq env st s).st.current = st.current := by
  unfold chord_to_eq
  repeat' (first | split | simp_all)

@[simp] theorem mixer_press_current (st : St) (n : Nat) :
    (mixer_press st n).st.current = st.current := by
  unfold mixer_press
  repeat' (first | split | simp_all)

@[simp] theorem eq_press_current (st : St) (n : Nat) :
    (eq_press st n).st.current = st.current := by
  unfold eq_press
  repeat' (first | split | simp_all)

/-! ### Concrete fixtures for the claim theorems -/

/-- A state in EQ mode on strip 1, module position 1. -/
def eqSt : St := { initSt with operation := ⟨Mode.eq, some 1, PluginPos.onePos 1⟩ }

/-- A state with the Solo button held (chord candidate tracked). -/
def chordSt : St := { initSt with note_press := ⟨some b_solo, true⟩ }

/-- A /strip/plugin/list reply for strip 1 holding one mono x42 EQ at
position 1 (plugin names are the slice [4::3]). -/
def listReply1 : List PVal :=
  [PVal.n 1, PVal.n 0, PVal.s "x", PVal.n 0, PVal.s monoName]

/-- A /strip/plugin/descriptor reply tuple for the Enable parameter with a
positive current value (name at index 5, value at index 12). -/
def descEnable1 : List PVal :=
  [PVal.n 0, PVal.n 0, PVal.n 0, PVal.n 0, PVal.n 0, PVal.s "Enable",
   PVal.n 0, PVal.n 0, PVal.n 0, PVal.n 0, PVal.n 0, PVal.n 0, PVal.n 1]

/-- Environment for a single-EQ discovery on strip 1. -/
def env1 : Env :=
  ⟨fun s => if s = 1 then some listReply1 else none,
   fun s p => if s = 1 ∧ p = 1 then [descEnable1] else []⟩

/-- A /strip/plugin/list reply for strip 1 holding three mono x42 EQs at
positions 1, 2 and 3. -/
def listReply3 : List PVal :=
  [PVal.n 1, PVal.n 0, PVal.s "x", PVal.n 0,
   PVal.s monoName, PVal.n 0, PVal.n 0,
   PVal.s monoName, PVal.n 0, PVal.n 0,
   PVal.s monoName, PVal.n 0, PVal.n 0]

/-- Environment for a three-candidate discovery on strip 1. -/
def env3 : Env :=
  ⟨fun s => if s = 1 then some listReply3 else none, fun _ _ => []⟩

/-- The read_keypress state reached by the three-candidate discovery, after
the chord is released. -/
def rkSt : St :=
  { initSt with operation := ⟨Mode.read_keypress, some 1, PluginPos.multiPos [1, 2, 3]⟩ }

/-- The four-event double press of the first mute button from the initial
state: press, release, press, release. -/
def doublePress : List Msg :=
  [Msg.note_on 1, Msg.note_off 1, Msg.note_on 1, Msg.note_off 1]

/-- Keep only the /strip/mute commands of an effect trace. -/
def muteCmds (l : List Out) : List Out :=
  l.filter (fun o => match o with | Out.oscMute _ _ => true | _ => false)

/-! ### C1 -/

/-- C1: pressing a mute button twice in Mixer mode should emit two
/strip/mute commands with opposite values. On the embedded code the run
(press 1, release 1, press 1, release 1) from the initial state emits
/strip/mute 1 1 twice — the same value both times — because operar_led
re-flips the mirror entry that trigger_mute just flipped, so each press
starts from an unchanged ledStatMix[0][1]. The mirror is back at false
after the run (trivially: it never net-changes). -/
theorem c1_double_press_emits_equal_values :
    muteCmds (runEvents env0 initSt doublePress).2 =
      [Out.oscMute 1 1, Out.oscMute 1 1] ∧
    getA (runEvents env0 initSt doublePress).1.bank0.led_stat_mix 1 = some false := by
  constructor
  · rfl
  · rfl

/-! ### C2 -/

/-- C2 counterexample: the claim says a continuous-change event in EQ mode
for a control with no Parameter Map entry does not raise out of the router.
Control 23 (the second fader) has no eq_fad_knob entry, and the
control_change branch of surface_callback is outside the try/except, so the
KeyError escapes: err = true. -/
theorem c2_counterexample :
    surface_callback env0 eqSt (Msg.cc 23 64) = ⟨eqSt, [], true⟩ := by
  rfl

/-- C2 amended: failures in the note_on branch are always caught (err is
never raised out of a note_on); an unrecognized control identity in a
Mixer-mode or ReadKeypress-mode continuous-change event is a complete
no-op; an unrecognized note_on in Mixer mode sends no command but does
record the pressed note in the chord tracker; and in EQ mode a
continuous-change for a control with no Parameter Map entry (other than
identities 62, 18, 60) raises an uncaught error out of the router, with no
command sent and no state change. -/
theorem c2_amended (env : Env) (st : St) :
    (∀ n, (surface_callback env st (Msg.note_on n)).err = false) ∧
    (st.operation.mode = Mode.mixer → ∀ c v, c ∉ faders → c ∉ knobs →
      surface_callback env st (Msg.cc c v) = ⟨st, [], false⟩) ∧
    (st.operation.mode = Mode.read_keypress → ∀ c v,
      surface_callback env st (Msg.cc c v) = ⟨st, [], false⟩) ∧
    (st.operation.mode = Mode.mixer → st.note_press.state = false → ∀ n,
      n ∉ mutes → n ∉ recs → n ≠ b_left → n ≠ b_right →
      surface_callback env st (Msg.note_on n) =
        ⟨{ st with note_press := ⟨some n, true⟩ }, [], false⟩) ∧
    (st.operation.mode = Mode.eq → ∀ c v, c ≠ 62 → c ≠ 18 → c ≠ 60 →
      eq_fad_knob c = none →
      surface_callback env st (Msg.cc c v) = ⟨st, [], true⟩) := by
  refine ⟨?_, ?_, ?_, ?_, ?_⟩
  · intro n
    simp only [surface_callback]
    split <;> simp_all
  · intro hm c v h1 h2
    simp [surface_callback, cc_handler, hm, h1, h2]
  · intro hm c v
    simp [surface_callback, cc_handler, hm]
  · intro hm hs n h1 h2 h3 h4
    simp [surface_callback, note_on_inner, mixer_press, hm, hs, h1, h2, h3, h4]
  · intro hm c v h62 h18 h60 hfk
    simp [surface_callback, cc_handler, hm, h62, h18, h60, hfk]

/-- C2 amended, witnessed at concrete inputs: control 5 is unmapped in
Mixer mode; note 2 is unmapped in Mixer mode; control 22 (a third-row knob)
is unmapped in EQ mode and raises. -/
theorem c2_amended_witness :
    (surface_callback env0 initSt (Msg.note_on 1)).err = false ∧
    surface_callback env0 initSt (Msg.cc 5 64) = ⟨initSt, [], false⟩ ∧
    surface_callback env0 rkSt (Msg.cc 5 64) = ⟨rkSt, [], false⟩ ∧
    surface_callback env0 initSt (Msg.note_on 2) =
      ⟨{ initSt with note_press := ⟨some 2, true⟩ }, [], false⟩ ∧
    surface_callback env0 eqSt (Msg.cc 22 64) = ⟨eqSt, [], true⟩ :=
  ⟨(c2_amended env0 initSt).1 1,
   (c2_amended env0 initSt).2.1 rfl 5 64 (by decide) (by decide),
   (c2_amended env0 rkSt).2.2.1 rfl 5 64,
   (c2_amended env0 initSt).2.2.2.1 rfl rfl 2 (by decide) (by decide) (by decide) (by decide),
   (c2_amended env0 eqSt).2.2.2.2 rfl 22 64 (by decide) (by decide) (by decide) rfl⟩

/-! ### C3 -/

/-- C3: the spec requires both discovery buffers to be cleared after a
query's result is consumed. On the single-EQ chord discovery (Solo held,
note 2 pressed, strip 1 holding one EQ) the handler completes without
error and leaves the consumed descriptor tuple in plugin_desc and the
consumed list reply in plugin_list: search_eq_strip's single-descriptor
path clears neither buffer (and espera_indice_modulo_eq's
`plugin_list = ()` binds a local, not the global). -/
theorem c3_buffers_not_cleared :
    (surface_callback env1 chordSt (Msg.note_on 2)).st.plugin_desc = [descEnable1] ∧
    (surface_callback env1 chordSt (Msg.note_on 2)).st.plugin_list = listReply1 ∧
    (surface_callback env1 chordSt (Msg.note_on 2)).st.operation =
      ⟨Mode.eq, some 1, PluginPos.onePos 1⟩ ∧
    (surface_callback env1 chordSt (Msg.note_on 2)).err = false := by
  refine ⟨rfl, rfl, rfl, rfl⟩

/-! ### C4 -/

/-- C4 counterexample: the claim says the descriptor-fetch pass is the only
operation writing EQ-mode LED state in response to a remote message. The
/strip/mute response handler event_mute also writes it: a /strip/mute 1 1.0
response flips ledStatEq key 21 of bank 0 from false to true. -/
theorem c4_counterexample :
    getA initSt.bank0.led_stat_eq 21 = some false ∧
    getA (event_mute initSt 1 1).st.bank0.led_stat_eq 21 = some true := by
  refine ⟨rfl, rfl⟩

/-- Writing back a bank slot with its led_stat_eq unchanged preserves every
bank's led_stat_eq (shape of the event_recenable write-back). -/
theorem setBank_rec_frame (st : St) (i : Int) (bl : BankL)
    (h : getBank st i = some bl) (mix2 : List (Nat × Bool)) :
    (setBank st i ⟨mix2, bl.led_stat_eq⟩).bank0.led_stat_eq = st.bank0.led_stat_eq ∧
    (setBank st i ⟨mix2, bl.led_stat_eq⟩).bank1.led_stat_eq = st.bank1.led_stat_eq ∧
    (setBank st i ⟨mix2, bl.led_stat_eq⟩).bank2.led_stat_eq = st.bank2.led_stat_eq := by
  unfold getBank at h
  unfold setBank
  split_ifs at h ⊢
  all_goals first
    | exact Option.noConfusion h
    | (simp only [Option.some.injEq] at h
       subst h
       exact ⟨rfl, rfl, rfl⟩)

/-- Writing back a bank slot whose led_stat_eq is written only at key 21
preserves every bank's led_stat_eq at any other key (shape of the
event_mute write-back). -/
theorem setBank_mute_frame (st : St) (i : Int) (bl : BankL)
    (h : getBank st i = some bl) (mix2 : List (Nat × Bool)) (v : Bool) (k : Nat)
    (hk : k ≠ 21) :
    getA (setBank st i ⟨mix2, setA bl.led_stat_eq 21 v⟩).bank0.led_stat_eq k =
      getA st.bank0.led_stat_eq k ∧
    getA (setBank st i ⟨mix2, setA bl.led_stat_eq 21 v⟩).bank1.led_stat_eq k =
      getA st.bank1.led_stat_eq k ∧
    getA (setBank st i ⟨mix2, setA bl.led_stat_eq 21 v⟩).bank2.led_stat_eq k =
      getA st.bank2.led_stat_eq k := by
  unfold getBank at h
  unfold setBank
  split_ifs at h ⊢
  all_goals first
    | exact Option.noConfusion h
    | (simp only [Option.some.injEq] at h
       subst h
       first
         | exact ⟨getA_setA_ne _ _ _ _ hk, rfl, rfl⟩
         | exact ⟨rfl, getA_setA_ne _ _ _ _ hk, rfl⟩
         | exact ⟨rfl, rfl, getA_setA_ne _ _ _ _ hk⟩)

set_option maxRecDepth 8192 in
set_option maxHeartbeats 1000000 in
/-- C4 amended: among the remote-response handlers, the descriptor-fetch
pass and the /strip/mute handler are the only writers of EQ-mode LED
state: event_recenable, get_plugin_list, get_plugin_desc and load_project
leave every bank's ledStatEq unchanged, and event_mute writes exactly key
21 (every other key of every bank's ledStatEq is preserved). -/
theorem c4_amended :
    (∀ st strip valor,
      (event_recenable st strip valor).st.bank0.led_stat_eq = st.bank0.led_stat_eq ∧
      (event_recenable st strip valor).st.bank1.led_stat_eq = st.bank1.led_stat_eq ∧
      (event_recenable st strip valor).st.bank2.led_stat_eq = st.bank2.led_stat_eq) ∧
    (∀ st args, (get_plugin_list st args).bank0 = st.bank0 ∧
      (get_plugin_list st args).bank1 = st.bank1 ∧
      (get_plugin_list st args).bank2 = st.bank2) ∧
    (∀ st args, (get_plugin_desc st args).bank0 = st.bank0 ∧
      (get_plugin_desc st args).bank1 = st.bank1 ∧
      (get_plugin_desc st args).bank2 = st.bank2) ∧
    (∀ st valor, (load_project st valor).st = st) ∧
    (∀ st strip valor k, k ≠ 21 →
      getA (event_mute st strip valor).st.bank0.led_stat_eq k =
        getA st.bank0.led_stat_eq k ∧
      getA (event_mute st strip valor).st.bank1.led_stat_eq k =
        getA st.bank1.led_stat_eq k ∧
      getA (event_mute st strip valor).st.bank2.led_stat_eq k =
        getA st.bank2.led_stat_eq k) := by
  refine ⟨?_, ?_, ?_, ?_, ?_⟩
  · intro st strip valor
    simp only [event_recenable]
    repeat' split
    all_goals first
      | exact ⟨rfl, rfl, rfl⟩
      | exact setBank_rec_frame st _ _ (by assumption) _
  · intro st args; exact ⟨rfl, rfl, rfl⟩
  · intro st args; exact ⟨rfl, rfl, rfl⟩
  · intro st valor
    unfold load_project; split <;> rfl
  · intro st strip valor k hk
    simp only [event_mute]
    repeat' split
    all_goals first
      | exact ⟨rfl, rfl, rfl⟩
      | exact setBank_mute_frame st _ _ (by assumption) _ _ k hk

/-- C4 amended, witnessed at concrete inputs: a /strip/recenable response
and a /strip/mute response on strip 1 (key 3 of ledStatEq untouched). -/
theorem c4_amended_witness :
    (event_recenable initSt 1 1).st.bank0.led_stat_eq = initSt.bank0.led_stat_eq ∧
    (load_project initSt " ").st = initSt ∧
    getA (event_mute initSt 1 1).st.bank0.led_stat_eq 3 =
      getA initSt.bank0.led_stat_eq 3 :=
  ⟨(c4_amended.1 initSt 1 1).1,
   c4_amended.2.2.2.1 initSt " ",
   (c4_amended.2.2.2.2 initSt 1 1 3 (by decide)).1⟩

/-! ### C5 -/

/-- C5: from EQ mode with the Solo button held, pressing the mute-row note
of the already-active channel (note m + 1, where m is the mute control at
index mi and the active strip is the bank-relative channel mi + 1 + 8 *
current) runs set_mixer_mode: the operation state returns to Mixer with
strip and plugin_pos unset, and no exception escapes. -/
theorem c5_retrigger_returns_to_mixer (env : Env) (st : St) (m mi : Nat)
    (hmi : pyListIndex mutes m = some mi)
    (hnp : st.note_press = ⟨some b_solo, true⟩)
    (hmode : st.operation.mode = Mode.eq)
    (hstrip : st.operation.strip = some (mi + 1 + 8 * st.current)) :
    (surface_callback env st (Msg.note_on (m + 1))).st.operation =
      ⟨Mode.mixer, none, PluginPos.nonePos⟩ ∧
    (surface_callback env st (Msg.note_on (m + 1))).err = false := by
  have hmem : m ∈ mutes := pyListIndex_mem hmi
  have hs : st.note_press.state = true := by rw [hnp]
  have hn : st.note_press.note = some b_solo := by rw [hnp]
  simp only [surface_callback, note_on_inner, hs, hn, Nat.add_sub_cancel, hmi, hmode,
    hstrip]
  simp only [hmem, if_true, reduceIte]
  cases herr : (set_mixer_mode st).err <;> simp_all [set_mixer_mode_st]

/-- The concrete EQ state on strip 1, Solo held: reached by entering EQ via
Solo + note 2 in bank 0 and keeping Solo pressed. -/
def eqChordSt : St :=
  { initSt with
      note_press := ⟨some b_solo, true⟩
      operation := ⟨Mode.eq, some 1, PluginPos.onePos 1⟩ }

/-- C5 witness: re-triggering note 2 with Solo still held from the EQ state
on strip 1 clears the operation state. -/
theorem c5_witness :
    (surface_callback env1 eqChordSt (Msg.note_on 2)).st.operation =
      ⟨Mode.mixer, none, PluginPos.nonePos⟩ ∧
    (surface_callback env1 eqChordSt (Msg.note_on 2)).err = false :=
  c5_retrigger_returns_to_mixer env1 eqChordSt 1 0 rfl rfl rfl rfl

/-! ### C6 -/

/-- The note_on wrapper of surface_callback keeps the state and output of
the inner handler (it only clears the err flag). -/
theorem surface_note_on_st (env : Env) (st : St) (n : Nat) :
    (surface_callback env st (Msg.note_on n)).st = (note_on_inner env st n).st ∧
    (surface_callback env st (Msg.note_on n)).out = (note_on_inner env st n).out := by
  simp only [surface_callback]
  split <;> exact ⟨rfl, rfl⟩

/-- Indexing a duplicate-free list and searching the element back gives the
same index (Python list.index on a member produced by indexing). -/
theorem pyListIndex_get (l : List Nat) (hnd : l.Nodup) (i : Fin l.length) :
    pyListIndex l (l.get i) = some i.val := by
  induction l with
  | nil => exact absurd i.isLt (by simp)
  | cons a rest ih =>
    obtain ⟨ha, hrest⟩ := List.nodup_cons.mp hnd
    rcases i with ⟨iv, hiv⟩
    cases iv with
    | zero => simp [pyListIndex]
    | succ k =>
      have hk : k < rest.length := by simpa using hiv
      have hne : a ≠ rest.get ⟨k, hk⟩ := by
        intro h
        exact ha (h ▸ List.get_mem rest k hk)
      have hrec := ih hrest ⟨k, hk⟩
      simp only [List.get_eq_getElem] at hne hrec
      simp [pyListIndex, hne, hrec]

/-- In read_keypress mode with n collected positions, pressing the rec
button at index j < n fetches the descriptor of the j-th collected
position and enters EQ for it. -/
theorem espera_select (env : Env) (st : St) (ps : List Nat) (j : Nat) (s : Nat)
    (hj : j < ps.length) (hj8 : j < recs.length)
    (hstrip : st.operation.strip = some s)
    (hpp : st.operation.plugin_pos = PluginPos.multiPos ps) :
    (espera_indice_modulo_eq env st (recs.get ⟨j, hj8⟩)).st.operation.mode = Mode.eq ∧
    (espera_indice_modulo_eq env st (recs.get ⟨j, hj8⟩)).st.operation.plugin_pos =
      PluginPos.onePos (ps.get ⟨j, hj⟩) ∧
    (espera_indice_modulo_eq env st (recs.get ⟨j, hj8⟩)).out.head? =
      some (Out.oscPluginDescriptor s (ps.get ⟨j, hj⟩)) := by
  have hcond : ¬ (j + 1 > ps.length) := by omega
  have hget : ps.get? j = some (ps.get ⟨j, hj⟩) := List.get?_eq_get hj
  have hj8n : j < 8 := by simpa [recs] using hj8
  interval_cases j <;>
    (simp only [espera_indice_modulo_eq, recs, List.get, pyListIndex, pyIndex]
     simp only [hpp, hstrip]
     simp_all [recs]
     repeat' split
     all_goals (try omega)
     all_goals simp_all [set_led_status_st])

/-- The state produced by a multi-candidate discovery: list buffer replaced
and operation switched to read_keypress on the queried strip. -/
def rkState (st : St) (l : List PVal) (strip_id : Nat) : St :=
  { st with
      plugin_list := l
      operation := { st.operation with
        mode := Mode.read_keypress
        strip := some strip_id } }

set_option maxHeartbeats 1000000 in
/-- C6: when discovery collects n candidate positions with 2 ≤ n ≤ 8, the
router enters ReadKeypress, darkens the surface and lights exactly the
first n rec LEDs; in that state, pressing the rec button at offset j < n
selects the j-th collected position (its descriptor is fetched and EQ mode
is entered for it); pressing any control that is not a rec button, or a
rec button beyond the lit range, leaves the state and output untouched. -/
theorem c6_read_keypress :
    (∀ env st strip_id l,
      env.listReply strip_id = some l → 4 ≤ l.length →
      (PVal.s monoName ∈ pySlice43 l ∨ PVal.s stereoName ∈ pySlice43 l) →
      2 ≤ (eqPositions (pySlice43 l)).length →
      (eqPositions (pySlice43 l)).length ≤ 8 →
      search_eq_strip env st strip_id =
        ⟨rkState st l strip_id,
          [Out.oscPluginList strip_id] ++ apaga_leds_out st ++
            (recs.take (eqPositions (pySlice43 l)).length).map Out.ledOn,
          false, PluginPos.multiPos (eqPositions (pySlice43 l))⟩ ∧
      ((recs.take (eqPositions (pySlice43 l)).length).map Out.ledOn).length =
        (eqPositions (pySlice43 l)).length) ∧
    (∀ env st ps j s (hj : j < ps.length) (hj8 : j < recs.length),
      st.note_press.state = false →
      st.operation.mode = Mode.read_keypress →
      st.operation.strip = some s →
      st.operation.plugin_pos = PluginPos.multiPos ps →
      (surface_callback env st (Msg.note_on (recs.get ⟨j, hj8⟩))).st.operation.mode =
        Mode.eq ∧
      (surface_callback env st
          (Msg.note_on (recs.get ⟨j, hj8⟩))).st.operation.plugin_pos =
        PluginPos.onePos (ps.get ⟨j, hj⟩) ∧
      (surface_callback env st (Msg.note_on (recs.get ⟨j, hj8⟩))).out.head? =
        some (Out.oscPluginDescriptor s (ps.get ⟨j, hj⟩))) ∧
    (∀ env st n,
      st.note_press.state = false → st.operation.mode = Mode.read_keypress →
      n ∉ recs →
      surface_callback env st (Msg.note_on n) = ⟨st, [], false⟩) ∧
    (∀ env st ps j (hj8 : j < recs.length),
      st.note_press.state = false → st.operation.mode = Mode.read_keypress →
      st.operation.plugin_pos = PluginPos.multiPos ps →
      ps.length ≤ j →
      surface_callback env st (Msg.note_on (recs.get ⟨j, hj8⟩)) = ⟨st, [], false⟩) := by
  refine ⟨?_, ?_, ?_, ?_⟩
  · intro env st strip_id l hrep hlen hpres h2 h8
    constructor
    · simp only [search_eq_strip, hrep]
      rw [if_neg (by omega)]
      rw [if_neg (by rcases hpres with h | h <;> simp [h])]
      rw [if_pos (by omega), if_neg (by omega)]
      simp [apaga_leds_out, rkState]
    · simp only [List.length_map, List.length_take]
      have : recs.length = 8 := rfl
      omega
  · intro env st ps j s hj hj8 hs hmode hstrip hpp
    have h := espera_select env st ps j s hj hj8 hstrip hpp
    have hw := surface_note_on_st env st (recs.get ⟨j, hj8⟩)
    have hinner : note_on_inner env st (recs.get ⟨j, hj8⟩) =
        espera_indice_modulo_eq env st (recs.get ⟨j, hj8⟩) := by
      simp [note_on_inner, hs, hmode]
    rw [hw.1, hw.2, hinner]
    exact h
  · intro env st n hs hmode hn
    simp [surface_callback, note_on_inner, espera_indice_modulo_eq, hs, hmode, hn]
  · intro env st ps j hj8 hs hmode hpp hlen
    have hnote_mem : recs.get ⟨j, hj8⟩ ∈ recs := List.get_mem _ _ _
    have hidx : pyListIndex recs (recs.get ⟨j, hj8⟩) = some j :=
      pyListIndex_get recs (by decide) ⟨j, hj8⟩
    have hgt : ps.length < j + 1 := by omega
    simp only [List.get_eq_getElem] at hnote_mem hidx
    simp [surface_callback, note_on_inner, espera_indice_modulo_eq, hs, hmode,
      hnote_mem, hidx, hpp, hgt]

/-- C6 witness: three mono EQs on strip 1 enter read_keypress lighting rec
LEDs 3, 6, 9; pressing the second lit rec button (note 6) selects collected
position 2; a non-rec note and the unlit fourth rec button are no-ops. -/
theorem c6_witness :
    search_eq_strip env3 initSt 1 =
      ⟨rkState initSt listReply3 1,
        [Out.oscPluginList 1] ++ apaga_leds_out initSt ++
          (recs.take 3).map Out.ledOn,
        false, PluginPos.multiPos [1, 2, 3]⟩ ∧
    (surface_callback env3 rkSt (Msg.note_on 6)).st.operation.plugin_pos =
      PluginPos.onePos 2 ∧
    surface_callback env3 rkSt (Msg.note_on 99) = ⟨rkSt, [], false⟩ ∧
    surface_callback env3 rkSt (Msg.note_on 12) = ⟨rkSt, [], false⟩ := by
  refine ⟨?_, ?_, ?_, ?_⟩
  · have h := (c6_read_keypress.1 env3 initSt 1 listReply3 rfl (by decide)
      (Or.inl (by decide)) (by decide) (by decide)).1
    simpa using h
  · exact (c6_read_keypress.2.1 env3 rkSt [1, 2, 3] 1 1 (by decide) (by decide)
      rfl rfl rfl rfl).2.1
  · exact c6_read_keypress.2.2.1 env3 rkSt 99 rfl rfl (by decide)
  · exact c6_read_keypress.2.2.2 env3 rkSt [1, 2, 3] 3 (by decide) rfl rfl rfl
      (by decide)

/-! ### C7 -/

set_option maxHeartbeats 2000000 in
/-- The note_on branch keeps the bank index in [0,2]: only the bank-left /
bank-right branches write it, and they clamp. -/
theorem note_on_inner_current_le (env : Env) (st : St) (n : Nat)
    (h : st.current ≤ 2) : (note_on_inner env st n).st.current ≤ 2 := by
  simp only [note_on_inner]
  repeat' split
  all_goals simp_all
  all_goals omega

/-- C7: the bank index is invariant in [0,2] under every surface event,
and with no chord held (outside ReadKeypress) a bank-left press moves the
index from c to c - 1 (so 0 stays 0) while a bank-right press moves it to
c + 1 when c < 2 and keeps it otherwise (so 2 stays 2). -/
theorem c7_bank_clamped :
    (∀ env st msg, st.current ≤ 2 → (surface_callback env st msg).st.current ≤ 2) ∧
    (∀ env st, st.note_press.state = false →
      st.operation.mode ≠ Mode.read_keypress →
      (surface_callback env st (Msg.note_on b_left)).st.current = st.current - 1 ∧
      (surface_callback env st (Msg.note_on b_right)).st.current =
        (if st.current < 2 then st.current + 1 else st.current)) := by
  constructor
  · intro env st msg h
    cases msg with
    | note_on n =>
      have hw := (surface_note_on_st env st n).1
      rw [hw]
      exact note_on_inner_current_le env st n h
    | note_off n =>
      simp only [surface_callback]
      split <;> simp [h]
    | cc c v => simp [surface_callback, h]
  · intro env st hs hmode
    constructor
    · have hw := (surface_note_on_st env st b_left).1
      rw [hw]
      simp only [note_on_inner, b_left, b_right]
      split_ifs <;> simp_all [set_led_status_st]
    · have hw := (surface_note_on_st env st b_right).1
      rw [hw]
      simp only [note_on_inner, b_left, b_right]
      split_ifs <;> simp_all [set_led_status_st]

/-- C7 witness: a bank-down press at index 0 stays at 0; a bank-up press at
index 2 stays at 2; and the invariant holds on a concrete event. -/
theorem c7_witness :
    (surface_callback env0 initSt (Msg.note_on 1)).st.current ≤ 2 ∧
    (surface_callback env0 initSt (Msg.note_on b_left)).st.current = 0 ∧
    (surface_callback env0 { initSt with current := 2 }
        (Msg.note_on b_right)).st.current = 2 :=
  ⟨c7_bank_clamped.1 env0 initSt (Msg.note_on 1) (by decide),
   (c7_bank_clamped.2 env0 initSt rfl (by decide)).1,
   by
    have h := (c7_bank_clamped.2 env0 { initSt with current := 2 } rfl (by decide)).2
    simpa using h⟩

/-! ### C8 -/

/-- The knob role encoded by the source: index i in the knob table selects
the action through the two-decimal rendering of (i / 3) mod 1, which is
"0.00" for i % 3 = 0 (trim), "0.33" for i % 3 = 1 (pan), and "0.67" for
i % 3 = 2 (solo threshold), so the role is exactly i % 3. -/
def knobRole (c : Nat) : Option Nat :=
  match pyListIndex knobs c with
  | some i => some (i % 3)
  | none => none

/-- Every knob identity is disjoint from the fader identities. -/
theorem knobs_not_faders : ∀ c ∈ knobs, c ∉ faders := by decide

/-- Every fader identity is disjoint from the knob identities. -/
theorem faders_not_knobs : ∀ c ∈ faders, c ∉ knobs := by decide

set_option maxHeartbeats 1000000 in
/-- C8: over the 24 knob identities the role function partitions them into
exactly 8 trim, 8 pan and 8 solo knobs, each identity getting exactly one
role; and in Mixer mode a continuous-change on a solo-role knob emits
/strip/solo with value 1.0 exactly when the raw value exceeds 90 and 0.0
otherwise, and no exception escapes. -/
theorem c8_knob_roles :
    ((knobs.filter (fun c => knobRole c == some 0)).length = 8 ∧
     (knobs.filter (fun c => knobRole c == some 1)).length = 8 ∧
     (knobs.filter (fun c => knobRole c == some 2)).length = 8 ∧
     knobs.all (fun c =>
       ((knobs.filter (fun x => knobRole x == some 0)).count c +
        (knobs.filter (fun x => knobRole x == some 1)).count c +
        (knobs.filter (fun x => knobRole x == some 2)).count c) = 1)) ∧
    (∀ st c v i, st.operation.mode = Mode.mixer →
      pyListIndex knobs c = some i → i % 3 = 2 →
      cc_handler st c v =
        ⟨st, [Out.oscSolo (i / 3 + 1 + 8 * st.current)
            (if 90 < v then (1 : Rat) else 0)], false⟩) := by
  constructor
  · exact ⟨by decide, by decide, by decide, by decide⟩
  · intro st c v i hm hi hrole
    have hmem : c ∈ knobs := pyListIndex_mem hi
    have hnf : c ∉ faders := knobs_not_faders c hmem
    simp only [cc_handler, hm, hnf, hmem, hi, hrole, reduceIte, if_true, if_false]
    simp

/-- C8 witness: knob identity 18 (third knob of strip 1, index 2) is a
solo-role knob; at raw value 100 it emits /strip/solo 1 1.0 from the
initial state. -/
theorem c8_witness :
    cc_handler initSt 18 100 =
      ⟨initSt, [Out.oscSolo 1 (if 90 < 100 then (1 : Rat) else 0)], false⟩ :=
  (c8_knob_roles.2 initSt 18 100 2 rfl rfl rfl)

/-! ### C9 -/

/-- C9: in Mixer mode a non-master fader at table index i emits
/strip/fader for the bank-relative strip i + 1 + 8 * current with level
0.0 + 0.79 * (v / 100), and the master fader (identity 62) emits
/master/gain with value -193 + 1.622 * v; no exception escapes. -/
theorem c9_fader_mapping :
    (∀ env st c i v, st.operation.mode = Mode.mixer →
      pyListIndex faders c = some i → c ≠ 62 →
      surface_callback env st (Msg.cc c v) =
        ⟨st, [Out.oscFader (i + 1 + 8 * st.current)
            (0 + 0.79 * ((v : Rat) / 100))], false⟩) ∧
    (∀ env st v, st.operation.mode = Mode.mixer →
      surface_callback env st (Msg.cc 62 v) =
        ⟨st, [Out.oscMasterGain (-193 + 1.622 * (v : Rat))], false⟩) := by
  constructor
  · intro env st c i v hm hi h62
    have hmem : c ∈ faders := pyListIndex_mem hi
    have hnk : c ∉ knobs := faders_not_knobs c hmem
    simp [surface_callback, cc_handler, hm, hmem, hi, h62, hnk]
  · intro env st v hm
    have hmem : (62 : Nat) ∈ faders := by decide
    have hnk : (62 : Nat) ∉ knobs := by decide
    simp [surface_callback, cc_handler, hm, hmem, hnk]

/-- C9 witness: fader 23 (strip 2) at raw value 100 emits /strip/fader 2
0.79, and the master fader at raw value 100 emits /master/gain -30.8. -/
theorem c9_witness :
    surface_callback env0 initSt (Msg.cc 23 100) =
      ⟨initSt, [Out.oscFader 2 (0 + 0.79 * ((100 : Rat) / 100))], false⟩ ∧
    surface_callback env0 initSt (Msg.cc 62 100) =
      ⟨initSt, [Out.oscMasterGain (-193 + 1.622 * (100 : Rat))], false⟩ :=
  ⟨c9_fader_mapping.1 env0 initSt 23 1 100 rfl rfl (by decide),
   c9_fader_mapping.2 env0 initSt 100 rfl⟩

/-! ### C10 -/

/-- C10: while a control other than Solo is tracked as held
(note_press.state true, tracked note not the Solo button), any further
note_on — bank buttons, mutes, recs, anything — produces no command, no
LED write and no state change at all. -/
theorem c10_held_non_solo_blocks (env : Env) (st : St) (n : Nat)
    (h1 : st.note_press.state = true)
    (h2 : st.note_press.note ≠ some b_solo) :
    surface_callback env st (Msg.note_on n) = ⟨st, [], false⟩ := by
  simp [surface_callback, note_on_inner, h1, h2]

/-- C10 witness: with mute 4 held, pressing bank-left is a complete no-op. -/
theorem c10_witness :
    surface_callback env0 { initSt with note_press := ⟨some 4, true⟩ }
      (Msg.note_on b_left) =
    ⟨{ initSt with note_press := ⟨some 4, true⟩ }, [], false⟩ :=
  c10_held_non_solo_blocks env0 _ b_left rfl (by decide)

end MidimixArdour
